import Mathlib

/-!
Shallow embedding of the order-lifecycle / basket / supplier-sync core of the
retail-procurement backend (backend/views.py, backend/signals.py), together
with the parts of the data model that the views rely on.  Database tables are
modelled as lists of records inside one `Db` state; each HTTP handler becomes a
pure function `Db → args → Db × response`.  Fallible code (unhandled Python
exceptions escaping a view) is modelled with `Except String`.
-/

/-- A user row: id, email and role ("shop" for suppliers, "buyer" otherwise). -/
structure UserRec where
  id : Nat
  email : String
  utype : String
  deriving Repr, DecidableEq

/-- A shop row, owned by one supplier user (views.py: Shop.objects.get_or_create(user_id=...)). -/
structure ShopRec where
  id : Nat
  userId : Nat
  name : String
  deriving Repr, DecidableEq

/-- A category row (numeric id comes from the import document). -/
structure CategoryRec where
  id : Nat
  name : String
  deriving Repr, DecidableEq

/-- A product row: get-or-created by (name, category id) during import. -/
structure ProductRec where
  id : Nat
  name : String
  categoryId : Nat
  deriving Repr, DecidableEq

/-- A ProductInfo row — a shop-specific offer of a product. -/
structure ProductInfoRec where
  id : Nat
  productId : Nat
  shopId : Nat
  externalId : Nat
  model : String
  price : Nat
  price_rrc : Nat
  quantity : Nat
  deriving Repr, DecidableEq

/-- A parameter-name row (Parameter.objects.get_or_create(name=...)). -/
structure ParameterRec where
  id : Nat
  name : String
  deriving Repr, DecidableEq

/-- A ProductParameter row: a key-value attribute attached to one ProductInfo. -/
structure ProductParameterRec where
  productInfoId : Nat
  parameterId : Nat
  value : String
  deriving Repr, DecidableEq

/-- An order row.  `state` ranges over the state enum; `contactId` is set at checkout. -/
structure OrderRec where
  id : Nat
  userId : Nat
  state : String
  contactId : Option Nat
  dt : Nat
  deriving Repr, DecidableEq

/-- An order line: one (order, offer, quantity) triple. -/
structure OrderItemRec where
  order : Nat
  productInfo : Nat
  quantity : Int
  deriving Repr, DecidableEq

/-- A contact (delivery address) row owned by one buyer. -/
structure ContactRec where
  id : Nat
  userId : Nat
  deriving Repr, DecidableEq

/-- An email notification handed to the notification gateway
(EmailMultiAlternatives / send_mail in signals.py and views.py). -/
structure Notif where
  recipient : String
  subject : String
  body : String
  deriving Repr, DecidableEq

/-- The whole persistent state: one list per table, fresh-id counters, a clock
for order timestamps, and the log of dispatched notifications. -/
structure Db where
  users : List UserRec := []
  shops : List ShopRec := []
  categories : List CategoryRec := []
  shopCategories : List (Nat × Nat) := []
  products : List ProductRec := []
  productInfos : List ProductInfoRec := []
  parameters : List ParameterRec := []
  productParameters : List ProductParameterRec := []
  orders : List OrderRec := []
  orderItems : List OrderItemRec := []
  contacts : List ContactRec := []
  notifications : List Notif := []
  nextShopId : Nat := 1
  nextProductId : Nat := 1
  nextProductInfoId : Nat := 1
  nextParameterId : Nat := 1
  nextOrderId : Nat := 1
  now : Nat := 0
  deriving Repr, DecidableEq

/-- A JsonResponse body: Status flag plus the optional keys the views emit
(Errors, Error, Сообщение, Создано объектов, Обновлено объектов, Удалено объектов). -/
structure Resp where
  status : Bool := false
  error : Option String := none
  errors : Option String := none
  message : Option String := none
  createdCount : Option Nat := none
  updatedCount : Option Nat := none
  deletedCount : Option Nat := none
  httpStatus : Nat := 200
  deriving Repr, DecidableEq

/-- Modelled from the spec: the Order state enum
basket, new, confirmed, assembled, sent, delivered, canceled (spec section 3),
each paired with its human-readable display label (models.py STATE_CHOICES is
not part of the provided sources). -/
def STATE_CHOICES : List (String × String) :=
  [("basket", "Статус корзины"), ("new", "Новый"), ("confirmed", "Подтвержден"),
   ("assembled", "Собран"), ("sent", "Отправлен"), ("delivered", "Доставлен"),
   ("canceled", "Отменен")]

/-- get_state_display(): the human-readable label of a state. -/
def getStateDisplay (s : String) : String :=
  ((STATE_CHOICES.find? (fun c => c.1 = s)).map (fun c => c.2)).getD s

/-- Look up a user's role. -/
def userType (db : Db) (u : Nat) : Option String :=
  (db.users.find? (fun x => x.id = u)).map (fun x => x.utype)

/-- Look up a user's email (order.user.email). -/
def userEmail (db : Db) (u : Nat) : String :=
  ((db.users.find? (fun x => x.id = u)).map (fun x => x.email)).getD ""

/-- One entry of the request field items: a dict with keys product_info and
quantity, either of which may be absent. -/
structure ItemData where
  productInfo : Option Nat
  quantity : Option Int
  deriving Repr, DecidableEq

/-- Modelled from the spec: OrderItemSerializer validation (models.py field
declarations are not part of the provided sources) — the referenced offer must
exist and the quantity must be a positive integer (spec section 4.1). -/
def orderItemValid (db : Db) (it : ItemData) : Bool :=
  match it.productInfo, it.quantity with
  | some pi, some q => db.productInfos.any (fun x => x.id = pi) && 1 ≤ q
  | _, _ => false

/-- Modelled from the spec: the uniqueness constraint one line per
(Order, Offer) pair (spec section 3); inserting a colliding line raises
IntegrityError on save (models.py is not part of the provided sources). -/
def duplicateLine (db : Db) (basketId pi : Nat) : Bool :=
  db.orderItems.any (fun x => x.order = basketId && x.productInfo = pi)

/-- Order.objects.get_or_create(user_id=..., state=basket): return the existing
basket order or create a fresh one. -/
def getOrCreateBasket (db : Db) (u : Nat) : Db × OrderRec :=
  match db.orders.find? (fun o => o.userId = u && o.state = "basket") with
  | some o => (db, o)
  | none =>
    let o : OrderRec := ⟨db.nextOrderId, u, "basket", none, db.now⟩
    ({ db with orders := db.orders ++ [o], nextOrderId := db.nextOrderId + 1 }, o)

/-- The per-line loop of BasketView.post: validate, save, count; the first
invalid line or duplicate-constraint violation returns immediately. -/
def addLoop (basketId : Nat) : Db → Nat → List ItemData → Db × Resp
  | db, created, [] => (db, { status := true, createdCount := some created })
  | db, created, it :: rest =>
    if orderItemValid db it then
      let pi := it.productInfo.getD 0
      let q := it.quantity.getD 0
      if duplicateLine db basketId pi then
        (db, { status := false,
               errors := some "IntegrityError: duplicate key value violates unique constraint" })
      else
        addLoop basketId
          { db with orderItems := db.orderItems ++ [⟨basketId, pi, q⟩] }
          (created + 1) rest
    else
      (db, { status := false, errors := some "serializer errors" })

/-- BasketView.post — add_items.  `none` models a missing items key, and an
empty list is falsy in Python, so both yield the format error. -/
def basketPost (db : Db) (u : Nat) (items : Option (List ItemData)) : Db × Resp :=
  match items with
  | none => (db, { status := false, errors := some "Неверный формат: ожидается список items" })
  | some [] => (db, { status := false, errors := some "Неверный формат: ожидается список items" })
  | some its =>
    let dbBasket := getOrCreateBasket db u
    addLoop dbBasket.2.id dbBasket.1 0 its

/-- Update the first order line matching (order, productInfo) to the new quantity
(OrderItem.objects.get(...); order_item.quantity = q; order_item.save()). -/
def updateFirstQty : List OrderItemRec → Nat → Nat → Int → List OrderItemRec
  | [], _, _, _ => []
  | x :: xs, b, p, q =>
    if x.order = b && x.productInfo = p then { x with quantity := q } :: xs
    else x :: updateFirstQty xs b p q

/-- Delete the first order line matching (order, productInfo)
(order_item.delete()). -/
def eraseFirstItem : List OrderItemRec → Nat → Nat → List OrderItemRec
  | [], _, _ => []
  | x :: xs, b, p =>
    if x.order = b && x.productInfo = p then xs else x :: eraseFirstItem xs b p

/-- One iteration of the BasketView.put loop: skip a line with missing fields or
no matching basket line; otherwise update (quantity > 0) or delete the line and
count it. -/
def putStep (basketId : Nat) (acc : Db × Nat) (it : ItemData) : Db × Nat :=
  match it.productInfo, it.quantity with
  | some pi, some q =>
    match acc.1.orderItems.find? (fun x => x.order = basketId && x.productInfo = pi) with
    | none => acc
    | some _ =>
      if 0 < q then
        ({ acc.1 with orderItems := updateFirstQty acc.1.orderItems basketId pi q }, acc.2 + 1)
      else
        ({ acc.1 with orderItems := eraseFirstItem acc.1.orderItems basketId pi }, acc.2 + 1)
  | _, _ => acc

/-- BasketView.put — update_items. -/
def basketPut (db : Db) (u : Nat) (items : Option (List ItemData)) : Db × Resp :=
  match items with
  | none => (db, { status := false, errors := some "Неверный формат: ожидается список items" })
  | some [] => (db, { status := false, errors := some "Неверный формат: ожидается список items" })
  | some its =>
    let dbBasket := getOrCreateBasket db u
    let res := its.foldl (putStep dbBasket.2.id) (dbBasket.1, 0)
    (res.1, { status := true, updatedCount := some res.2 })

/-- BasketView.delete — remove_all: delete every line of the basket order. -/
def basketDelete (db : Db) (u : Nat) : Db × Resp :=
  match db.orders.find? (fun o => o.userId = u && o.state = "basket") with
  | some b =>
    let deleted := (db.orderItems.filter (fun x => x.order = b.id)).length
    ({ db with orderItems := db.orderItems.filter (fun x => x.order ≠ b.id) },
     { status := true, deletedCount := some deleted })
  | none => (db, { status := true, deletedCount := some 0 })

/-- new_order_signal (signals.py): emails the buyer that the order was accepted.
Present in the source but never fired by OrderView.post. -/
def new_order_signal (db : Db) (uId : Nat) : Db :=
  { db with notifications := db.notifications ++
      [⟨userEmail db uId, "Обновление статуса заказа",
        "Ваш заказ успешно сформирован и принят в обработку."⟩] }

/-- OrderView.post — place_order: look up the caller-owned basket order and the
caller-owned contact, then set the contact and move the state to new.  Faithful
to the source, no notification is dispatched (the new_order signal is imported
but never sent). -/
def orderPost (db : Db) (u : Nat) (orderId contactId : Nat) : Db × Resp :=
  if orderId = 0 || contactId = 0 then
    (db, { status := false, errors := some "Не указаны id заказа или контакт" })
  else
    match db.orders.find? (fun o => o.userId = u && o.id = orderId && o.state = "basket") with
    | none => (db, { status := false, errors := some "Заказ не найден или уже оформлен" })
    | some _ =>
      match db.contacts.find? (fun c => c.userId = u && c.id = contactId) with
      | none => (db, { status := false, errors := some "Контакт не найден" })
      | some c =>
        ({ db with orders := db.orders.map (fun o =>
             if o.userId = u && o.id = orderId && o.state = "basket" then
               { o with contactId := some c.id, state := "new" }
             else o) },
         { status := true, message := some "Заказ успешно оформлен" })

/-- Does the offer referenced by an order line belong to a shop of this user? -/
def offerBelongsToUser (db : Db) (piId uId : Nat) : Bool :=
  match db.productInfos.find? (fun x => x.id = piId) with
  | some pi =>
    match db.shops.find? (fun s => s.id = pi.shopId) with
    | some s => s.userId = uId
    | none => false
  | none => false

/-- Does the order contain at least one line whose offer belongs to a shop of
this user (ordered_items__product_info__shop__user_id filter)? -/
def orderHasShopItem (db : Db) (oid uId : Nat) : Bool :=
  db.orderItems.any (fun it => it.order = oid && offerBelongsToUser db it.productInfo uId)

/-- The fulfillment-eligible states of PartnerOrders.post. -/
def fulfillStates : List String := ["new", "confirmed", "assembled", "sent"]

/-- PartnerOrders.post — set_status.  `emailOk` models whether send_mail (with
fail_silently=False) succeeds; on failure the exception is caught by the
enclosing except block after the state change was already saved. -/
def partnerOrdersPost (db : Db) (u : Nat) (orderId : Nat) (status : String)
    (emailOk : Bool) : Db × Resp :=
  if userType db u ≠ some "shop" then
    (db, { status := false, error := some "Только для магазинов", httpStatus := 403 })
  else if orderId = 0 || status = "" then
    (db, { status := false, errors := some "Не указаны id заказа или статус" })
  else if !(STATE_CHOICES.any (fun c => c.1 = status)) then
    (db, { status := false, errors := some "Недопустимый статус" })
  else
    match db.orders.find? (fun o =>
        o.id = orderId && orderHasShopItem db o.id u &&
        fulfillStates.contains o.state) with
    | none =>
      (db, { status := false,
             errors := some "Заказ не найден или недоступен для изменения",
             httpStatus := 403 })
    | some o =>
      let db1 := { db with orders := db.orders.map (fun x =>
          if x.id = orderId then { x with state := status } else x) }
      if emailOk then
        ({ db1 with notifications := db1.notifications ++
            [⟨userEmail db o.userId,
              "Статус вашего заказа #" ++ toString o.id ++ " изменён",
              "Новый статус: " ++ getStateDisplay status ++ "\nДата: " ++ toString o.dt⟩] },
         { status := true,
           message := some ("Статус заказа #" ++ toString orderId ++ " изменён на " ++ status) })
      else
        (db1, { status := false, errors := some "SMTPException: send failed" })

/-- One entry of the categories list of an import document; both keys are read
with square brackets (KeyError when absent), so they are Options here. -/
structure CatEntry where
  id : Option Nat
  name : Option String
  deriving Repr, DecidableEq

/-- One entry of the goods list of an import document.  id, category, name,
price, price_rrc and quantity are read with square brackets (KeyError when
absent); model and parameters are read with .get and have defaults. -/
structure GoodsItem where
  id : Option Nat
  category : Option Nat
  name : Option String
  model : Option String
  price : Option Nat
  price_rrc : Option Nat
  quantity : Option Nat
  parameters : List (String × String)
  deriving Repr, DecidableEq

/-- One entry of the products list written by PartnerExport.get. -/
structure ExportProduct where
  model : String
  name : String
  price : String
  price_rrc : String
  quantity : Nat
  parameters : List (String × String)
  deriving Repr, DecidableEq

/-- A parsed YAML document as a partial mapping: each top-level key may be
absent.  The import reads shop, categories and goods; the export writes shop
and products. -/
structure PriceDoc where
  shop : Option String := none
  categories : Option (List CatEntry) := none
  goods : Option (List GoodsItem) := none
  products : Option (List ExportProduct) := none
  deriving Repr, DecidableEq

/-- Shop.objects.get_or_create(user_id=..., defaults=name): find the caller's
shop or create one with the given default name. -/
def getOrCreateShop (db : Db) (u : Nat) (defName : String) : Db × ShopRec :=
  match db.shops.find? (fun s => s.userId = u) with
  | some s => (db, s)
  | none =>
    let s : ShopRec := ⟨db.nextShopId, u, defName⟩
    ({ db with shops := db.shops ++ [s], nextShopId := db.nextShopId + 1 }, s)

/-- One iteration of the categories loop: get-or-create the category by its
numeric id (the defaults dict evaluates category_data[name] eagerly, so a
missing name is a KeyError even for an existing category) and associate it
with the shop. -/
def processCategory (db : Db) (shopId : Nat) (c : CatEntry) : Db × Option String :=
  match c.id with
  | none => (db, some "KeyError: id")
  | some cid =>
    match c.name with
    | none => (db, some "KeyError: name")
    | some cnm =>
      let db1 :=
        match db.categories.find? (fun x => x.id = cid) with
        | some _ => db
        | none => { db with categories := db.categories ++ [⟨cid, cnm⟩] }
      (if db1.shopCategories.contains (cid, shopId) then (db1, none)
       else ({ db1 with shopCategories := db1.shopCategories ++ [(cid, shopId)] }, none))

/-- The categories loop, stopping at the first KeyError. -/
def categoriesLoop (shopId : Nat) : Db → List CatEntry → Db × Option String
  | db, [] => (db, none)
  | db, c :: rest =>
    match processCategory db shopId c with
    | (db1, none) => categoriesLoop shopId db1 rest
    | (db1, some e) => (db1, some e)

/-- Product.objects.get_or_create(name=..., category_id=...). -/
def getOrCreateProduct (db : Db) (nm : String) (cat : Nat) : Db × ProductRec :=
  match db.products.find? (fun p => p.name = nm && p.categoryId = cat) with
  | some p => (db, p)
  | none =>
    let p : ProductRec := ⟨db.nextProductId, nm, cat⟩
    ({ db with products := db.products ++ [p], nextProductId := db.nextProductId + 1 }, p)

/-- One parameter key/value: get-or-create the Parameter name, then create a
ProductParameter row for the new offer. -/
def addParam (db : Db) (piId : Nat) (nm v : String) : Db :=
  match db.parameters.find? (fun p => p.name = nm) with
  | some p =>
    { db with productParameters := db.productParameters ++ [⟨piId, p.id, v⟩] }
  | none =>
    { db with parameters := db.parameters ++ [⟨db.nextParameterId, nm⟩],
              nextParameterId := db.nextParameterId + 1,
              productParameters := db.productParameters ++ [⟨piId, db.nextParameterId, v⟩] }

/-- The successful import response. -/
def importOkResp : Resp := { status := true, message := some "Прайс-лист успешно загружен" }

/-- The goods loop of PartnerUpdate.post.  Field accesses follow source order:
name and category feed Product.get_or_create, then id, price, price_rrc and
quantity feed ProductInfo.create.  A missing required field raises a KeyError
that no handler catches, modelled as Except.error; writes made before the
fault stay in the returned Db (no enclosing transaction). -/
def goodsLoop (shopId : Nat) : Db → List GoodsItem → Db × Except String Resp
  | db, [] => (db, Except.ok importOkResp)
  | db, item :: rest =>
    match item.name with
    | none => (db, Except.error "KeyError: name")
    | some nm =>
      match item.category with
      | none => (db, Except.error "KeyError: category")
      | some cat =>
        let dbProd := getOrCreateProduct db nm cat
        match item.id with
        | none => (dbProd.1, Except.error "KeyError: id")
        | some ext =>
          match item.price with
          | none => (dbProd.1, Except.error "KeyError: price")
          | some price =>
            match item.price_rrc with
            | none => (dbProd.1, Except.error "KeyError: price_rrc")
            | some rrc =>
              match item.quantity with
              | none => (dbProd.1, Except.error "KeyError: quantity")
              | some qty =>
                let db1 := dbProd.1
                let piId := db1.nextProductInfoId
                let pi : ProductInfoRec :=
                  ⟨piId, dbProd.2.id, shopId, ext, item.model.getD "", price, rrc, qty⟩
                let db2 := { db1 with productInfos := db1.productInfos ++ [pi],
                                      nextProductInfoId := piId + 1 }
                let db3 := item.parameters.foldl (fun d kv => addParam d piId kv.1 kv.2) db2
                goodsLoop shopId db3 rest

/-- The body of PartnerUpdate.post after the shop is resolved: process the
categories, wipe all of the shop's offers together with their attribute
values, then create one offer per goods entry. -/
def importTail (shopId : Nat) (db2 : Db) (cats : List CatEntry) (goods : List GoodsItem) :
    Db × Except String Resp :=
  match categoriesLoop shopId db2 cats with
  | (db3, some e) => (db3, Except.error e)
  | (db3, none) =>
    let wipedIds := (db3.productInfos.filter (fun pi => pi.shopId = shopId)).map (fun pi => pi.id)
    let db4 := { db3 with
      productInfos := db3.productInfos.filter (fun pi => pi.shopId ≠ shopId),
      productParameters := db3.productParameters.filter (fun pp =>
        !(wipedIds.contains pp.productInfoId)) }
    goodsLoop shopId db4 goods

/-- PartnerUpdate.post — supplier sync, from the already-parsed document:
resolve the shop, refresh its name, then run `importTail` (categories,
unconditional offer wipe, goods creation).  Except.error means an unhandled
exception escaped the view. -/
def partnerUpdatePost (db : Db) (u : Nat) (doc : PriceDoc) : Db × Except String Resp :=
  if userType db u ≠ some "shop" then
    (db, Except.ok { status := false, error := some "Только для магазинов", httpStatus := 403 })
  else
    let dbShop := getOrCreateShop db u (doc.shop.getD "Без названия")
    let shop := dbShop.2
    let name1 := doc.shop.getD shop.name
    let db2 := { dbShop.1 with shops := dbShop.1.shops.map (fun s =>
        if s.id = shop.id then { s with name := name1 } else s) }
    importTail shop.id db2 (doc.categories.getD []) (doc.goods.getD [])

/-- The name of the product an offer refers to. -/
def productName (db : Db) (pid : Nat) : String :=
  ((db.products.find? (fun p => p.id = pid)).map (fun p => p.name)).getD ""

/-- The attribute key/value pairs attached to an offer, names resolved through
the Parameter table. -/
def paramsOf (db : Db) (piId : Nat) : List (String × String) :=
  (db.productParameters.filter (fun pp => pp.productInfoId = piId)).map (fun pp =>
    (((db.parameters.find? (fun p => p.id = pp.parameterId)).map (fun p => p.name)).getD "",
     pp.value))

/-- The offers a shop currently holds. -/
def offersOf (db : Db) (shopId : Nat) : List ProductInfoRec :=
  db.productInfos.filter (fun pi => pi.shopId = shopId)

/-- The observable catalog content of a shop: one
(product name, price, price_rrc, quantity, parameter map) tuple per offer. -/
def catalogTuples (db : Db) (shopId : Nat) : List (String × Nat × Nat × Nat × List (String × String)) :=
  (offersOf db shopId).map (fun pi =>
    (productName db pi.productId, pi.price, pi.price_rrc, pi.quantity, paramsOf db pi.id))

/-- PartnerExport.get — serialize the shop's offers into an export document.
The offers go under the key products; each entry gets model
(external id when non-zero, else the model string, mirroring the Python or),
name, price and price_rrc as strings, quantity and parameters.  No id or
category keys are emitted. -/
def partnerExportGet (db : Db) (u : Nat) : Option PriceDoc :=
  if userType db u ≠ some "shop" then none
  else
    match db.shops.find? (fun s => s.userId = u) with
    | none => none
    | some shop =>
      some { shop := some shop.name,
             products := some ((offersOf db shop.id).map (fun pi =>
               ({ model := if pi.externalId ≠ 0 then toString pi.externalId else pi.model,
                  name := productName db pi.productId,
                  price := toString pi.price,
                  price_rrc := toString pi.price_rrc,
                  quantity := pi.quantity,
                  parameters := paramsOf db pi.id } : ExportProduct))) }

/-- A well-formed goods entry: all required fields present. -/
def entryWF (g : GoodsItem) : Bool :=
  g.id.isSome && g.category.isSome && g.name.isSome &&
  g.price.isSome && g.price_rrc.isSome && g.quantity.isSome

/-- A well-formed category entry: both fields present. -/
def catWF (c : CatEntry) : Bool := c.id.isSome && c.name.isSome

/-- The shop id PartnerUpdate.post resolves for a supplier. -/
def resolveShopId (db : Db) (u : Nat) : Nat :=
  match db.shops.find? (fun s => s.userId = u) with
  | some s => s.id
  | none => db.nextShopId

/-- Every stored offer id is below the fresh-id counter — true of every state
the operations produce, and of any honest database. -/
def piIdsFresh (db : Db) : Bool :=
  db.productInfos.all (fun pi => pi.id < db.nextProductInfoId)

/-- The core operations of the spec, as one step alphabet. -/
inductive Op where
  | addItems (u : Nat) (items : List ItemData)
  | updateItems (u : Nat) (items : List ItemData)
  | removeAll (u : Nat)
  | placeOrder (u oid cid : Nat)
  | setStatus (u oid : Nat) (status : String) (emailOk : Bool)
  | supplierSync (u : Nat) (doc : PriceDoc)
  deriving Repr

/-- The state reached by one operation (responses discarded). -/
def applyOp (db : Db) : Op → Db
  | Op.addItems u items => (basketPost db u (some items)).1
  | Op.updateItems u items => (basketPut db u (some items)).1
  | Op.removeAll u => (basketDelete db u).1
  | Op.placeOrder u oid cid => (orderPost db u oid cid).1
  | Op.setStatus u oid s ok => (partnerOrdersPost db u oid s ok).1
  | Op.supplierSync u doc => (partnerUpdatePost db u doc).1

/-- Run a sequence of operations. -/
def runOps (db : Db) (ops : List Op) : Db := ops.foldl applyOp db

/-- How many basket-state orders a user owns. -/
def basketCount (db : Db) (u : Nat) : Nat :=
  (db.orders.filter (fun o => o.userId = u && o.state = "basket")).length

/-- Does this operation ask set_status to move an order into the basket state? -/
def Op.setsBasket : Op → Bool
  | Op.setStatus _ _ s _ => s = "basket"
  | _ => false

/-- The current state of an order, by id. -/
def getOrderState (db : Db) (oid : Nat) : Option String :=
  (db.orders.find? (fun o => o.id = oid)).map (fun o => o.state)

/-- The contact attached to an order, by id. -/
def getOrderContact (db : Db) (oid : Nat) : Option Nat :=
  ((db.orders.find? (fun o => o.id = oid)).map (fun o => o.contactId)).getD none

/-- The quantity of the basket line for an offer, if present. -/
def getItemQty (db : Db) (oid pid : Nat) : Option Int :=
  (db.orderItems.find? (fun x => x.order = oid && x.productInfo = pid)).map (fun x => x.quantity)

/-- The computed order total: sum of quantity times offer price over the lines
(the annotation in OrderView.get). -/
def orderTotal (db : Db) (oid : Nat) : Int :=
  ((db.orderItems.filter (fun x => x.order = oid)).map (fun x =>
    x.quantity * (((db.productInfos.find? (fun p => p.id = x.productInfo)).map
      (fun p => (p.price : Int))).getD 0))).sum

/-! ### Concrete fixtures used by the closed theorems and witnesses -/

/-- A buyer (id 1) with a one-line basket order (id 1) and a contact (id 1). -/
def dbPlace : Db :=
  { users := [⟨1, "buyer@example.com", "buyer"⟩],
    orders := [⟨1, 1, "basket", none, 0⟩],
    orderItems := [⟨1, 1, 2⟩],
    contacts := [⟨1, 1⟩],
    nextOrderId := 2 }

/-- A supplier (id 10) whose shop (id 1) holds one offer with one attribute. -/
def dbShopOne : Db :=
  { users := [⟨10, "shop@example.com", "shop"⟩],
    shops := [⟨1, 10, "TestShop"⟩],
    categories := [⟨5, "Phones"⟩],
    shopCategories := [(5, 1)],
    products := [⟨1, "iPhone", 5⟩],
    productInfos := [⟨1, 1, 1, 1001, "", 10000, 12000, 3⟩],
    parameters := [⟨1, "Color"⟩],
    productParameters := [⟨1, 1, "Red"⟩],
    nextShopId := 2, nextProductId := 2, nextProductInfoId := 2, nextParameterId := 2 }

/-- A buyer (id 1) with a basket order (id 1) and one offer (id 7) in the catalog. -/
def dbDup : Db :=
  { users := [⟨1, "buyer@example.com", "buyer"⟩],
    productInfos := [⟨7, 1, 1, 1001, "", 100, 120, 5⟩],
    orders := [⟨1, 1, "basket", none, 0⟩],
    nextOrderId := 2 }

/-- A buyer (id 1) with a contact and a supplier (id 2), before any operation. -/
def dbTrace : Db :=
  { users := [⟨1, "buyer@example.com", "buyer"⟩, ⟨2, "shop@example.com", "shop"⟩],
    contacts := [⟨1, 1⟩] }

/-- A one-good import document for the supplier of `dbTrace`. -/
def docTrace : PriceDoc :=
  { shop := some "S",
    categories := some [⟨some 5, some "Cat"⟩],
    goods := some [⟨some 1001, some 5, some "P", none, some 10, some 12, some 5, []⟩] }

/-- Sync the catalog, fill and place a basket, fill a second basket, then have
the supplier set the placed order's status back to basket. -/
def opsTrace : List Op :=
  [Op.supplierSync 2 docTrace,
   Op.addItems 1 [⟨some 1, some 1⟩],
   Op.placeOrder 1 1 1,
   Op.addItems 1 [⟨some 1, some 1⟩],
   Op.setStatus 2 1 "basket" true]

/-- An import document whose single goods entry is missing the price field. -/
def badDocC5 : PriceDoc :=
  { shop := some "TestShop",
    categories := some [⟨some 5, some "Phones"⟩],
    goods := some [⟨some 1001, some 5, some "iPhone", none, none, some 12000, some 3, []⟩] }

/-- A three-good import document. -/
def docThree : PriceDoc :=
  { shop := some "S", categories := some [⟨some 5, some "Cat"⟩],
    goods := some [⟨some 1, some 5, some "A", none, some 1, some 2, some 3, [("Color", "Red")]⟩,
                   ⟨some 2, some 5, some "B", none, some 1, some 2, some 3, []⟩,
                   ⟨some 3, some 5, some "C", none, some 1, some 2, some 3, []⟩] }

/-- A one-good import document reusing one of the product names of `docThree`. -/
def docOne : PriceDoc :=
  { shop := some "S", categories := some [⟨some 5, some "Cat"⟩],
    goods := some [⟨some 9, some 5, some "A", none, some 4, some 5, some 6, []⟩] }

/-- A bare supplier account (id 2) with no shop yet. -/
def dbSupplier : Db := { users := [⟨2, "shop@example.com", "shop"⟩] }

/-- A supplier (id 2) with a shop and an offer, and a buyer order (id 1) in
state new containing that offer. -/
def dbFulfill : Db :=
  { users := [⟨1, "buyer@example.com", "buyer"⟩, ⟨2, "shop@example.com", "shop"⟩],
    shops := [⟨1, 2, "S"⟩],
    productInfos := [⟨1, 1, 1, 1001, "", 10, 12, 5⟩],
    orders := [⟨1, 1, "new", some 1, 42⟩],
    orderItems := [⟨1, 1, 2⟩],
    contacts := [⟨1, 1⟩],
    nextShopId := 2, nextProductInfoId := 2, nextOrderId := 2 }

/-- Every user owning a basket-state order owns at most one: a decidable
statement of the one-basket-per-buyer invariant. -/
def basketsAtMostOneB (db : Db) : Bool :=
  db.orders.all (fun o => !(o.state = "basket") || decide (basketCount db o.userId ≤ 1))

def dbPlaceEmpty : Db :=
  { users := [⟨1, "buyer@example.com", "buyer"⟩],
    orders := [⟨1, 1, "basket", none, 0⟩],
    contacts := [⟨1, 1⟩],
    nextOrderId := 2 }

def opsGood : List Op :=
  [Op.supplierSync 2 docTrace, Op.addItems 1 [⟨some 1, some 1⟩], Op.placeOrder 1 1 1]

def dbAfterThree : Db := (partnerUpdatePost dbSupplier 2 docThree).1

/-! ### Closed theorems: code bugs and counterexamples -/

/-- C1: on a successful place_order the code sets the contact, moves the state
to new and reports success, but dispatches zero buyer notifications — the
new_order signal is imported by the view yet never sent, so the notification
required by the claim (and promised by the view's own docstring) never
happens. -/
theorem C1_place_order_dispatches_no_notification :
    (orderPost dbPlace 1 1 1).2.status = true ∧
    getOrderState (orderPost dbPlace 1 1 1).1 1 = some "new" ∧
    getOrderContact (orderPost dbPlace 1 1 1).1 1 = some 1 ∧
    (orderPost dbPlace 1 1 1).1.notifications = [] :=
  ⟨rfl, rfl, rfl, rfl⟩

/-- C2: export then import does not preserve the catalog.  The export writes
the offers under the key products and omits the id and category fields, while
the import reads the key goods — so re-importing an exported document wipes
the shop's offers and creates none, turning a one-offer catalog into an empty
one. -/
theorem C2_roundtrip_loses_catalog :
    catalogTuples dbShopOne 1 = [("iPhone", 10000, 12000, 3, [("Color", "Red")])] ∧
    (partnerExportGet dbShopOne 10).map
      (fun d => catalogTuples (partnerUpdatePost dbShopOne 10 d).1 1) = some [] :=
  ⟨rfl, rfl⟩

/-- C3 counterexample: adding the same offer twice in one call yields a
response with Status false, the duplicate error and no created count at all —
not the claimed report of 1 created alongside the error. -/
theorem C3_counterexample_no_partial_count :
    (basketPost dbDup 1 (some [⟨some 7, some 1⟩, ⟨some 7, some 1⟩])).2 =
      { status := false,
        errors := some "IntegrityError: duplicate key value violates unique constraint" } ∧
    (basketPost dbDup 1 (some [⟨some 7, some 1⟩, ⟨some 7, some 1⟩])).2.createdCount = none :=
  ⟨rfl, rfl⟩

/-- C4 counterexample: a reachable state with two basket orders for one buyer —
sync the catalog, add to basket, place the order, add to a fresh basket, then
have the supplier set the placed order's status to basket (the status
validation accepts every member of the state enum, including basket). -/
theorem C4_counterexample_two_baskets :
    basketCount (runOps dbTrace opsTrace) 1 = 2 :=
  rfl

/-- C5 counterexample: an import whose goods entry is missing the price field
wipes the shop's offers and then raises a KeyError that no handler catches —
the view never returns a structured Status-false response for it. -/
theorem C5_counterexample_unhandled_fault :
    (partnerUpdatePost dbShopOne 10 badDocC5).2 = Except.error "KeyError: price" ∧
    offersOf (partnerUpdatePost dbShopOne 10 badDocC5).1 1 = [] :=
  ⟨rfl, rfl⟩

/-! ### Helper lemmas -/

theorem find?_id_of_mem_nodup (l : List OrderRec) (o : OrderRec)
    (hmem : o ∈ l) (hnd : (l.map (fun x => x.id)).Nodup) :
    l.find? (fun x => x.id = o.id) = some o := by
  induction l with
  | nil => cases hmem
  | cons x xs ih =>
    rcases List.mem_cons.mp hmem with h | h
    · subst h
      simp [List.find?]
    · have hnd' := (List.nodup_cons.mp hnd)
      have hne : x.id ≠ o.id := by
        intro he
        have hmm : o.id ∈ xs.map (fun x => x.id) := List.mem_map_of_mem (fun x => x.id) h
        rw [← he] at hmm
        exact hnd'.1 hmm
      simp [List.find?, hne]
      exact ih h hnd'.2

theorem map_id_preserved (l : List OrderRec) (f : OrderRec → OrderRec)
    (hf : ∀ x, (f x).id = x.id) :
    (l.map f).map (fun x => x.id) = l.map (fun x => x.id) := by
  rw [List.map_map]
  exact List.map_congr_left (fun x _ => hf x)

theorem getOrderState_of_find (db1 : Db) (oid : Nat) (s : String) (o : OrderRec)
    (h : db1.orders.find? (fun x => x.id = oid) = some o) (hs : o.state = s) :
    getOrderState db1 oid = some s := by
  unfold getOrderState
  rw [h]
  simp [hs]

theorem find?_updateFirstQty (l : List OrderItemRec) (bId pid : Nat) (q : Int) (x : OrderItemRec)
    (h : l.find? (fun y => y.order = bId && y.productInfo = pid) = some x) :
    (updateFirstQty l bId pid q).find? (fun y => y.order = bId && y.productInfo = pid) =
      some { x with quantity := q } := by
  induction l with
  | nil => simp [List.find?] at h
  | cons a as ih =>
    by_cases ha : (decide (a.order = bId) && decide (a.productInfo = pid)) = true
    · rw [List.find?_cons_of_pos (p := fun y => y.order = bId && y.productInfo = pid) as ha] at h
      injection h with h
      subst h
      unfold updateFirstQty
      rw [if_pos ha]
      exact List.find?_cons_of_pos (p := fun y => y.order = bId && y.productInfo = pid)
        (a := { a with quantity := q }) as (by exact ha)
    · rw [List.find?_cons_of_neg (p := fun y => y.order = bId && y.productInfo = pid) as ha] at h
      unfold updateFirstQty
      rw [if_neg ha, List.find?_cons_of_neg (p := fun y => y.order = bId && y.productInfo = pid) (updateFirstQty as bId pid q) ha]
      exact ih h

theorem find?_eraseFirstItem (l : List OrderItemRec) (bId pid : Nat)
    (hc : l.countP (fun y => y.order = bId && y.productInfo = pid) ≤ 1) :
    (eraseFirstItem l bId pid).find? (fun y => y.order = bId && y.productInfo = pid) = none := by
  induction l with
  | nil => rfl
  | cons a as ih =>
    by_cases ha : (decide (a.order = bId) && decide (a.productInfo = pid)) = true
    · unfold eraseFirstItem
      rw [if_pos ha]
      have h0 : as.countP (fun y => y.order = bId && y.productInfo = pid) = 0 := by
        rw [List.countP_cons_of_pos (p := fun y => y.order = bId && y.productInfo = pid) as ha] at hc
        omega
      rw [List.find?_eq_none]
      intro x hx
      have := List.countP_eq_zero.mp h0 x hx
      simpa using this
    · unfold eraseFirstItem
      rw [if_neg ha, List.find?_cons_of_neg (p := fun y => y.order = bId && y.productInfo = pid) (eraseFirstItem as bId pid) ha]
      apply ih
      rw [List.countP_cons_of_neg (p := fun y => y.order = bId && y.productInfo = pid) as ha] at hc
      exact hc

theorem processCategory_frame (db : Db) (sid : Nat) (c : CatEntry) :
    (processCategory db sid c).1.productInfos = db.productInfos ∧
    (processCategory db sid c).1.nextProductInfoId = db.nextProductInfoId ∧
    (processCategory db sid c).1.orders = db.orders := by
  unfold processCategory
  rcases c.id with _ | cid
  · exact ⟨rfl, rfl, rfl⟩
  rcases c.name with _ | nm
  · exact ⟨rfl, rfl, rfl⟩
  dsimp only
  split <;> split <;> exact ⟨rfl, rfl, rfl⟩

theorem processCategory_ok (db : Db) (sid : Nat) (c : CatEntry) (h : catWF c = true) :
    (processCategory db sid c).2 = none := by
  unfold catWF at h
  simp only [Bool.and_eq_true, Option.isSome_iff_exists] at h
  obtain ⟨⟨cid, hcid⟩, nm, hnm⟩ := h
  unfold processCategory
  rw [hcid, hnm]
  dsimp only
  split <;> split <;> rfl

theorem categoriesLoop_frame (sid : Nat) (cats : List CatEntry) : ∀ db : Db,
    (categoriesLoop sid db cats).1.productInfos = db.productInfos ∧
    (categoriesLoop sid db cats).1.nextProductInfoId = db.nextProductInfoId ∧
    (categoriesLoop sid db cats).1.orders = db.orders := by
  induction cats with
  | nil => intro db; exact ⟨rfl, rfl, rfl⟩
  | cons c cs ih =>
    intro db
    have hframe := processCategory_frame db sid c
    rw [categoriesLoop]
    rcases hpc : processCategory db sid c with ⟨db1, e⟩
    rw [hpc] at hframe
    rcases e with _ | e
    · dsimp only
      have := ih db1
      exact ⟨this.1.trans hframe.1, this.2.1.trans hframe.2.1, this.2.2.trans hframe.2.2⟩
    · exact hframe

theorem categoriesLoop_ok (sid : Nat) (cats : List CatEntry) : ∀ db : Db,
    cats.all catWF = true → (categoriesLoop sid db cats).2 = none := by
  induction cats with
  | nil => intro db _; rfl
  | cons c cs ih =>
    intro db hall
    rw [List.all_cons, Bool.and_eq_true] at hall
    rw [categoriesLoop]
    rcases hpc : processCategory db sid c with ⟨db1, e⟩
    have hok := processCategory_ok db sid c hall.1
    rw [hpc] at hok
    dsimp only at hok
    subst hok
    dsimp only
    exact ih db1 hall.2

theorem getOrCreateProduct_frame (db : Db) (nm : String) (cat : Nat) :
    (getOrCreateProduct db nm cat).1.productInfos = db.productInfos ∧
    (getOrCreateProduct db nm cat).1.nextProductInfoId = db.nextProductInfoId ∧
    (getOrCreateProduct db nm cat).1.orders = db.orders := by
  unfold getOrCreateProduct
  split <;> exact ⟨rfl, rfl, rfl⟩

theorem addParam_frame (db : Db) (piId : Nat) (nm v : String) :
    (addParam db piId nm v).productInfos = db.productInfos ∧
    (addParam db piId nm v).nextProductInfoId = db.nextProductInfoId ∧
    (addParam db piId nm v).orders = db.orders := by
  unfold addParam
  split <;> exact ⟨rfl, rfl, rfl⟩

theorem paramsFold_frame (piId : Nat) (ps : List (String × String)) : ∀ db : Db,
    (ps.foldl (fun d kv => addParam d piId kv.1 kv.2) db).productInfos = db.productInfos ∧
    (ps.foldl (fun d kv => addParam d piId kv.1 kv.2) db).nextProductInfoId = db.nextProductInfoId ∧
    (ps.foldl (fun d kv => addParam d piId kv.1 kv.2) db).orders = db.orders := by
  induction ps with
  | nil => intro db; exact ⟨rfl, rfl, rfl⟩
  | cons kv ks ih =>
    intro db
    rw [List.foldl_cons]
    have h1 := addParam_frame db piId kv.1 kv.2
    have h2 := ih (addParam db piId kv.1 kv.2)
    exact ⟨h2.1.trans h1.1, h2.2.1.trans h1.2.1, h2.2.2.trans h1.2.2⟩

theorem goodsLoop_wf_spec (sid : Nat) (items : List GoodsItem) : ∀ db : Db,
    items.all entryWF = true →
    (goodsLoop sid db items).2 = Except.ok importOkResp ∧
    ((goodsLoop sid db items).1.productInfos.filter (fun pi => pi.shopId = sid)).length =
      (db.productInfos.filter (fun pi => pi.shopId = sid)).length + items.length ∧
    (∀ pi ∈ (goodsLoop sid db items).1.productInfos,
      pi ∈ db.productInfos ∨ db.nextProductInfoId ≤ pi.id) ∧
    db.nextProductInfoId ≤ (goodsLoop sid db items).1.nextProductInfoId ∧
    (goodsLoop sid db items).1.orders = db.orders := by
  induction items with
  | nil =>
    intro db _
    exact ⟨rfl, rfl, fun pi h => Or.inl h, Nat.le_refl _, rfl⟩
  | cons g gs ih =>
    intro db hall
    rw [List.all_cons, Bool.and_eq_true] at hall
    obtain ⟨hg, hgs⟩ := hall
    unfold entryWF at hg
    simp only [Bool.and_eq_true, Option.isSome_iff_exists] at hg
    obtain ⟨⟨⟨⟨⟨⟨ext, hid⟩, cat, hcat⟩, nm, hnm⟩, pr, hpr⟩, rrc, hrrc⟩, qty, hqty⟩ := hg
    rw [goodsLoop, hnm, hcat, hid, hpr, hrrc, hqty]
    dsimp only
    have hP := getOrCreateProduct_frame db nm cat
    set db1 := (getOrCreateProduct db nm cat).1 with hdb1
    set pi0 : ProductInfoRec :=
      ⟨db1.nextProductInfoId, (getOrCreateProduct db nm cat).2.id, sid, ext, g.model.getD "", pr, rrc, qty⟩
      with hpi0
    set db2 : Db := { db1 with productInfos := db1.productInfos ++ [pi0],
                               nextProductInfoId := db1.nextProductInfoId + 1 } with hdb2
    have hF := paramsFold_frame pi0.id g.parameters db2
    set db3 := g.parameters.foldl (fun d kv => addParam d pi0.id kv.1 kv.2) db2 with hdb3
    have h3pi : db3.productInfos = db.productInfos ++ [pi0] := by
      rw [hF.1, hdb2]
      dsimp only
      rw [hP.1]
    have h3next : db3.nextProductInfoId = db.nextProductInfoId + 1 := by
      rw [hF.2.1, hdb2]
      dsimp only
      rw [hP.2.1]
    have h3ord : db3.orders = db.orders := by
      rw [hF.2.2, hdb2]
      dsimp only
      rw [hP.2.2]
    have hpi0sid : pi0.shopId = sid := rfl
    have hpi0id : pi0.id = db.nextProductInfoId := by
      rw [hpi0]
      dsimp only
      rw [hdb1, hP.2.1]
    have hrec := ih db3 hgs
    refine ⟨hrec.1, ?_, ?_, ?_, ?_⟩
    · rw [hrec.2.1, h3pi, List.filter_append]
      have : (([pi0] : List ProductInfoRec).filter (fun pi => pi.shopId = sid)) = [pi0] := by
        simp [hpi0sid]
      rw [List.length_append, this]
      simp [List.length_cons]
      omega
    · intro pi hpi
      rcases hrec.2.2.1 pi hpi with hmem | hle
      · rw [h3pi] at hmem
        rcases List.mem_append.mp hmem with hmem | hmem
        · exact Or.inl hmem
        · have : pi = pi0 := List.mem_singleton.mp hmem
          subst this
          exact Or.inr (le_of_eq hpi0id.symm)
      · rw [h3next] at hle
        exact Or.inr (Nat.le_trans (Nat.le_succ _) hle)
    · have := hrec.2.2.2.1
      rw [h3next] at this
      exact Nat.le_trans (Nat.le_succ _) this
    · rw [hrec.2.2.2.2, h3ord]

theorem goodsLoop_err_spec (sid : Nat) (items : List GoodsItem) : ∀ db : Db,
    items.all entryWF = false →
    (∃ e, (goodsLoop sid db items).2 = Except.error e) ∧
    (∀ pi ∈ (goodsLoop sid db items).1.productInfos,
      pi ∈ db.productInfos ∨ db.nextProductInfoId ≤ pi.id) ∧
    (goodsLoop sid db items).1.orders = db.orders := by
  induction items with
  | nil => intro db h; cases h
  | cons g gs ih =>
    intro db hall
    rw [List.all_cons] at hall
    by_cases hg : entryWF g = true
    · have hgs : gs.all entryWF = false := by
        rw [hg, Bool.true_and] at hall
        exact hall
      unfold entryWF at hg
      simp only [Bool.and_eq_true, Option.isSome_iff_exists] at hg
      obtain ⟨⟨⟨⟨⟨⟨ext, hid⟩, cat, hcat⟩, nm, hnm⟩, pr, hpr⟩, rrc, hrrc⟩, qty, hqty⟩ := hg
      rw [goodsLoop, hnm, hcat, hid, hpr, hrrc, hqty]
      dsimp only
      have hP := getOrCreateProduct_frame db nm cat
      set db1 := (getOrCreateProduct db nm cat).1 with hdb1
      set pi0 : ProductInfoRec :=
        ⟨db1.nextProductInfoId, (getOrCreateProduct db nm cat).2.id, sid, ext, g.model.getD "", pr, rrc, qty⟩
        with hpi0
      set db2 : Db := { db1 with productInfos := db1.productInfos ++ [pi0],
                                 nextProductInfoId := db1.nextProductInfoId + 1 } with hdb2
      have hF := paramsFold_frame pi0.id g.parameters db2
      set db3 := g.parameters.foldl (fun d kv => addParam d pi0.id kv.1 kv.2) db2 with hdb3
      have h3pi : db3.productInfos = db.productInfos ++ [pi0] := by
        rw [hF.1, hdb2]
        dsimp only
        rw [hP.1]
      have h3next : db3.nextProductInfoId = db.nextProductInfoId + 1 := by
        rw [hF.2.1, hdb2]
        dsimp only
        rw [hP.2.1]
      have h3ord : db3.orders = db.orders := by
        rw [hF.2.2, hdb2]
        dsimp only
        rw [hP.2.2]
      have hpi0id : pi0.id = db.nextProductInfoId := by
        rw [hpi0]
        dsimp only
        rw [hdb1, hP.2.1]
      have hrec := ih db3 hgs
      refine ⟨hrec.1, ?_, ?_⟩
      · intro pi hpi
        rcases hrec.2.1 pi hpi with hmem | hle
        · rw [h3pi] at hmem
          rcases List.mem_append.mp hmem with hmem | hmem
          · exact Or.inl hmem
          · have : pi = pi0 := List.mem_singleton.mp hmem
            subst this
            exact Or.inr (le_of_eq hpi0id.symm)
        · rw [h3next] at hle
          exact Or.inr (Nat.le_trans (Nat.le_succ _) hle)
      · rw [hrec.2.2, h3ord]
    · rcases hnm : g.name with _ | nm
      · rw [goodsLoop, hnm]
        exact ⟨⟨_, rfl⟩, fun pi h => Or.inl h, rfl⟩
      rcases hcat : g.category with _ | cat
      · rw [goodsLoop, hnm, hcat]
        exact ⟨⟨_, rfl⟩, fun pi h => Or.inl h, rfl⟩
      have hP := getOrCreateProduct_frame db nm cat
      rcases hid : g.id with _ | ext
      · rw [goodsLoop, hnm, hcat, hid]
        dsimp only
        exact ⟨⟨_, rfl⟩, fun pi h => Or.inl (hP.1 ▸ h), hP.2.2⟩
      rcases hpr : g.price with _ | pr
      · rw [goodsLoop, hnm, hcat, hid, hpr]
        dsimp only
        exact ⟨⟨_, rfl⟩, fun pi h => Or.inl (hP.1 ▸ h), hP.2.2⟩
      rcases hrrc : g.price_rrc with _ | rrc
      · rw [goodsLoop, hnm, hcat, hid, hpr, hrrc]
        dsimp only
        exact ⟨⟨_, rfl⟩, fun pi h => Or.inl (hP.1 ▸ h), hP.2.2⟩
      rcases hqty : g.quantity with _ | qty
      · rw [goodsLoop, hnm, hcat, hid, hpr, hrrc, hqty]
        dsimp only
        exact ⟨⟨_, rfl⟩, fun pi h => Or.inl (hP.1 ▸ h), hP.2.2⟩
      exfalso
      apply hg
      unfold entryWF
      rw [hnm, hcat, hid, hpr, hrrc, hqty]
      rfl

theorem wipe_filter_empty (l : List ProductInfoRec) (sid : Nat) :
    (l.filter (fun pi => pi.shopId ≠ sid)).filter (fun pi => pi.shopId = sid) = [] := by
  rw [List.filter_eq_nil_iff]
  intro x hx
  have := List.of_mem_filter hx
  simp at this
  simp [this]

theorem importTail_wf (sid : Nat) (db2 : Db) (cats : List CatEntry) (goods : List GoodsItem)
    (hcats : cats.all catWF = true) (hwf : goods.all entryWF = true) :
    (importTail sid db2 cats goods).2 = Except.ok importOkResp ∧
    (offersOf (importTail sid db2 cats goods).1 sid).length = goods.length ∧
    (∀ pi ∈ (importTail sid db2 cats goods).1.productInfos,
      pi.shopId ≠ sid ∨ db2.nextProductInfoId ≤ pi.id) ∧
    (importTail sid db2 cats goods).1.orders = db2.orders := by
  have hclf := categoriesLoop_frame sid cats db2
  have hclo := categoriesLoop_ok sid cats db2 hcats
  unfold importTail
  rcases hcl : categoriesLoop sid db2 cats with ⟨db3, e⟩
  rw [hcl] at hclf hclo
  dsimp only at hclf hclo
  subst hclo
  dsimp only
  set db4 : Db := { db3 with
    productInfos := db3.productInfos.filter (fun pi => pi.shopId ≠ sid),
    productParameters := db3.productParameters.filter (fun pp =>
      !(((db3.productInfos.filter (fun pi => pi.shopId = sid)).map (fun pi => pi.id)).contains
          pp.productInfoId)) } with hdb4
  have h4pi : db4.productInfos = db3.productInfos.filter (fun pi => pi.shopId ≠ sid) := rfl
  have h4next : db4.nextProductInfoId = db2.nextProductInfoId := hclf.2.1
  have h4ord : db4.orders = db2.orders := hclf.2.2
  have hrec := goodsLoop_wf_spec sid goods db4 hwf
  refine ⟨hrec.1, ?_, ?_, ?_⟩
  · have hempty : db4.productInfos.filter (fun pi => pi.shopId = sid) = [] := by
      rw [h4pi]
      exact wipe_filter_empty db3.productInfos sid
    have := hrec.2.1
    rw [hempty] at this
    unfold offersOf
    rw [this]
    simp
  · intro pi hpi
    rcases hrec.2.2.1 pi hpi with hmem | hle
    · rw [h4pi] at hmem
      have := List.of_mem_filter hmem
      simp at this
      exact Or.inl this
    · rw [h4next] at hle
      exact Or.inr hle
  · rw [hrec.2.2.2.2, h4ord]

theorem importTail_err (sid : Nat) (db2 : Db) (cats : List CatEntry) (goods : List GoodsItem)
    (hcats : cats.all catWF = true) (hbad : goods.all entryWF = false) :
    (∃ e, (importTail sid db2 cats goods).2 = Except.error e) ∧
    (∀ pi ∈ (importTail sid db2 cats goods).1.productInfos,
      pi.shopId ≠ sid ∨ db2.nextProductInfoId ≤ pi.id) := by
  have hclf := categoriesLoop_frame sid cats db2
  have hclo := categoriesLoop_ok sid cats db2 hcats
  unfold importTail
  rcases hcl : categoriesLoop sid db2 cats with ⟨db3, e⟩
  rw [hcl] at hclf hclo
  dsimp only at hclf hclo
  subst hclo
  dsimp only
  set db4 : Db := { db3 with
    productInfos := db3.productInfos.filter (fun pi => pi.shopId ≠ sid),
    productParameters := db3.productParameters.filter (fun pp =>
      !(((db3.productInfos.filter (fun pi => pi.shopId = sid)).map (fun pi => pi.id)).contains
          pp.productInfoId)) } with hdb4
  have h4pi : db4.productInfos = db3.productInfos.filter (fun pi => pi.shopId ≠ sid) := rfl
  have h4next : db4.nextProductInfoId = db2.nextProductInfoId := hclf.2.1
  have hrec := goodsLoop_err_spec sid goods db4 hbad
  refine ⟨hrec.1, ?_⟩
  intro pi hpi
  rcases hrec.2.1 pi hpi with hmem | hle
  · rw [h4pi] at hmem
    have := List.of_mem_filter hmem
    simp at this
    exact Or.inl this
  · rw [h4next] at hle
    exact Or.inr hle

theorem partnerUpdate_reduces (db : Db) (u : Nat) (doc : PriceDoc)
    (htype : userType db u = some "shop") :
    ∃ db2 : Db, partnerUpdatePost db u doc =
        importTail (resolveShopId db u) db2 (doc.categories.getD []) (doc.goods.getD []) ∧
      db2.productInfos = db.productInfos ∧
      db2.nextProductInfoId = db.nextProductInfoId ∧
      db2.orders = db.orders := by
  have hne : ¬(userType db u ≠ some "shop") := fun h => h htype
  rcases hs : db.shops.find? (fun s => s.userId = u) with _ | s
  · refine ⟨{ { db with shops := db.shops ++ [(⟨db.nextShopId, u, doc.shop.getD "Без названия"⟩ : ShopRec)],
                        nextShopId := db.nextShopId + 1 } with
              shops := (db.shops ++ [(⟨db.nextShopId, u, doc.shop.getD "Без названия"⟩ : ShopRec)]).map
                (fun x : ShopRec => if x.id = db.nextShopId then
                   { x with name := doc.shop.getD (doc.shop.getD "Без названия") } else x) },
            ?_, rfl, rfl, rfl⟩
    unfold partnerUpdatePost getOrCreateShop resolveShopId
    rw [if_neg hne, hs]
  · refine ⟨{ db with shops := List.map (fun x : ShopRec => if x.id = s.id then { x with name := doc.shop.getD s.name } else x) db.shops },
            ?_, rfl, rfl, rfl⟩
    unfold partnerUpdatePost getOrCreateShop resolveShopId
    rw [if_neg hne, hs]

theorem addLoop_orders (b : Nat) (items : List ItemData) : ∀ db : Db, ∀ n : Nat,
    (addLoop b db n items).1.orders = db.orders := by
  induction items with
  | nil => intro db n; rfl
  | cons it rest ih =>
    intro db n
    rw [addLoop]
    by_cases hv : orderItemValid db it = true
    · rw [if_pos hv]
      dsimp only
      by_cases hd : duplicateLine db b (it.productInfo.getD 0) = true
      · rw [if_pos hd]
      · rw [if_neg hd]
        exact ih _ _
    · rw [if_neg hv]

theorem putStep_orders (b : Nat) (acc : Db × Nat) (it : ItemData) :
    (putStep b acc it).1.orders = acc.1.orders := by
  unfold putStep
  rcases it.productInfo with _ | pid
  · rfl
  rcases it.quantity with _ | q
  · rfl
  dsimp only
  split
  · rfl
  · split <;> rfl

theorem putFold_orders (b : Nat) (items : List ItemData) : ∀ acc : Db × Nat,
    ((items.foldl (putStep b) acc).1).orders = acc.1.orders := by
  induction items with
  | nil => intro acc; rfl
  | cons it rest ih =>
    intro acc
    rw [List.foldl_cons]
    rw [ih (putStep b acc it)]
    exact putStep_orders b acc it

theorem goodsLoop_orders (sid : Nat) (items : List GoodsItem) : ∀ db : Db,
    (goodsLoop sid db items).1.orders = db.orders := by
  induction items with
  | nil => intro db; rfl
  | cons g gs ih =>
    intro db
    rcases hnm : g.name with _ | nm
    · rw [goodsLoop, hnm]
    rcases hcat : g.category with _ | cat
    · rw [goodsLoop, hnm, hcat]
    have hP := getOrCreateProduct_frame db nm cat
    rcases hid : g.id with _ | ext
    · rw [goodsLoop, hnm, hcat, hid]
      exact hP.2.2
    rcases hpr : g.price with _ | pr
    · rw [goodsLoop, hnm, hcat, hid, hpr]
      exact hP.2.2
    rcases hrrc : g.price_rrc with _ | rrc
    · rw [goodsLoop, hnm, hcat, hid, hpr, hrrc]
      exact hP.2.2
    rcases hqty : g.quantity with _ | qty
    · rw [goodsLoop, hnm, hcat, hid, hpr, hrrc, hqty]
      exact hP.2.2
    rw [goodsLoop, hnm, hcat, hid, hpr, hrrc, hqty]
    dsimp only
    rw [ih _]
    have hF := paramsFold_frame (getOrCreateProduct db nm cat).1.nextProductInfoId g.parameters
      ({ (getOrCreateProduct db nm cat).1 with
         productInfos := (getOrCreateProduct db nm cat).1.productInfos ++
           [⟨(getOrCreateProduct db nm cat).1.nextProductInfoId, (getOrCreateProduct db nm cat).2.id,
             sid, ext, g.model.getD "", pr, rrc, qty⟩],
         nextProductInfoId := (getOrCreateProduct db nm cat).1.nextProductInfoId + 1 })
    rw [hF.2.2]
    exact hP.2.2

theorem importTail_orders (sid : Nat) (db2 : Db) (cats : List CatEntry) (goods : List GoodsItem) :
    (importTail sid db2 cats goods).1.orders = db2.orders := by
  have hclf := categoriesLoop_frame sid cats db2
  unfold importTail
  rcases hcl : categoriesLoop sid db2 cats with ⟨db3, e⟩
  rw [hcl] at hclf
  dsimp only at hclf
  rcases e with _ | e
  · dsimp only
    rw [goodsLoop_orders]
    exact hclf.2.2
  · exact hclf.2.2

theorem partnerUpdatePost_orders (db : Db) (u : Nat) (doc : PriceDoc) :
    (partnerUpdatePost db u doc).1.orders = db.orders := by
  by_cases htype : userType db u = some "shop"
  · obtain ⟨db2, hred, _, _, hord⟩ := partnerUpdate_reduces db u doc htype
    rw [hred, importTail_orders]
    exact hord
  · unfold partnerUpdatePost
    rw [if_pos htype]

theorem basketDelete_orders (db : Db) (u : Nat) : (basketDelete db u).1.orders = db.orders := by
  unfold basketDelete
  split <;> rfl

theorem basketCount_eq_countP (db : Db) (v : Nat) :
    basketCount db v = db.orders.countP (fun o => o.userId = v && o.state = "basket") := by
  unfold basketCount
  rw [List.countP_eq_length_filter]

theorem basketCount_congr_orders (db db' : Db) (v : Nat) (h : db'.orders = db.orders) :
    basketCount db' v = basketCount db v := by
  unfold basketCount
  rw [h]

theorem basketCount_append_one (db : Db) (u v : Nat) (o' : OrderRec)
    (ho : o'.userId = u) (hos : o'.state = "basket")
    (hnone : db.orders.find? (fun o => o.userId = u && o.state = "basket") = none)
    (h : ∀ w, basketCount db w ≤ 1) :
    ((db.orders ++ [o']).filter (fun o => o.userId = v && o.state = "basket")).length ≤ 1 := by
  rw [List.filter_append, List.length_append]
  by_cases hv : v = u
  · subst hv
    have hnil : db.orders.filter (fun o => o.userId = v && o.state = "basket") = [] := by
      rw [List.filter_eq_nil_iff]
      intro x hx
      exact (List.find?_eq_none.mp hnone) x hx
    rw [hnil]
    simp [List.length_filter_le]
    have : (List.filter (fun o => o.userId = v && o.state = "basket") [o']).length ≤ [o'].length :=
      List.length_filter_le _ _
    simpa using this
  · have hnil : ([o'].filter (fun o => o.userId = v && o.state = "basket")) = [] := by
      rw [List.filter_eq_nil_iff]
      intro x hx
      rcases List.mem_singleton.mp hx with rfl
      simp [ho]
      intro hx'
      exact absurd hx'.symm hv
    rw [hnil]
    simpa using h v

theorem getOrCreateBasket_count (db : Db) (u : Nat)
    (h : ∀ w, basketCount db w ≤ 1) :
    ∀ v, basketCount (getOrCreateBasket db u).1 v ≤ 1 := by
  intro v
  unfold getOrCreateBasket
  rcases hf : db.orders.find? (fun o => o.userId = u && o.state = "basket") with _ | o
  · rw [hf]
    dsimp only
    unfold basketCount
    exact basketCount_append_one db u v _ rfl rfl hf h
  · rw [hf]
    exact h v

theorem basketCount_map_le (db : Db) (f : OrderRec → OrderRec) (v : Nat)
    (hf : ∀ o, ((f o).userId = v && (f o).state = "basket") = true →
               (o.userId = v && o.state = "basket") = true)
    (h : basketCount db v ≤ 1) :
    basketCount ({ db with orders := db.orders.map f }) v ≤ 1 := by
  rw [basketCount_eq_countP] at h ⊢
  rw [show ({ db with orders := db.orders.map f } : Db).orders = db.orders.map f from rfl]
  rw [List.countP_map]
  exact Nat.le_trans (List.countP_mono_left (fun o _ hp => hf o hp)) h

theorem orderPost_count (db : Db) (u oid cid : Nat)
    (h : ∀ w, basketCount db w ≤ 1) :
    ∀ v, basketCount (orderPost db u oid cid).1 v ≤ 1 := by
  intro v
  unfold orderPost
  split
  · exact h v
  split
  · exact h v
  split
  · exact h v
  dsimp only
  apply basketCount_map_le db _ v ?_ (h v)
  intro o hp
  by_cases hc : (o.userId = u && o.id = oid && o.state = "basket") = true
  · rw [if_pos hc] at hp
    simp at hp
  · rw [if_neg hc] at hp
    exact hp

theorem partnerOrdersPost_count (db : Db) (u oid : Nat) (status : String) (emailOk : Bool)
    (hstatus : status ≠ "basket")
    (h : ∀ w, basketCount db w ≤ 1) :
    ∀ v, basketCount (partnerOrdersPost db u oid status emailOk).1 v ≤ 1 := by
  intro v
  unfold partnerOrdersPost
  split
  · exact h v
  split
  · exact h v
  split
  · exact h v
  split
  · exact h v
  dsimp only
  have hmap : ∀ o : OrderRec,
      (((if o.id = oid then { o with state := status } else o) : OrderRec).userId = v &&
        ((if o.id = oid then { o with state := status } else o) : OrderRec).state = "basket") = true →
      (o.userId = v && o.state = "basket") = true := by
    intro o hp
    by_cases hc : o.id = oid
    · rw [if_pos hc] at hp
      simp at hp
      exact absurd hp.2 hstatus
    · rw [if_neg hc] at hp
      exact hp
  split
  · exact basketCount_map_le db _ v hmap (h v)
  · exact basketCount_map_le db _ v hmap (h v)

theorem applyOp_count (db : Db) (op : Op) (hop : op.setsBasket = false)
    (h : ∀ w, basketCount db w ≤ 1) : ∀ v, basketCount (applyOp db op) v ≤ 1 := by
  intro v
  cases op with
  | addItems u items =>
    show basketCount (basketPost db u (some items)).1 v ≤ 1
    cases items with
    | nil => exact h v
    | cons it rest =>
      unfold basketPost
      dsimp only
      rw [basketCount_congr_orders _ _ v (addLoop_orders (getOrCreateBasket db u).2.id (it :: rest) (getOrCreateBasket db u).1 0)]
      exact getOrCreateBasket_count db u h v
  | updateItems u items =>
    show basketCount (basketPut db u (some items)).1 v ≤ 1
    cases items with
    | nil => exact h v
    | cons it rest =>
      unfold basketPut
      dsimp only
      rw [basketCount_congr_orders _ _ v (putFold_orders (getOrCreateBasket db u).2.id (it :: rest) ((getOrCreateBasket db u).1, 0))]
      exact getOrCreateBasket_count db u h v
  | removeAll u =>
    show basketCount (basketDelete db u).1 v ≤ 1
    rw [basketCount_congr_orders _ _ v (basketDelete_orders db u)]
    exact h v
  | placeOrder u oid cid =>
    exact orderPost_count db u oid cid h v
  | setStatus u oid status emailOk =>
    have hstatus : status ≠ "basket" := by
      have : decide (status = "basket") = false := hop
      exact of_decide_eq_false this
    exact partnerOrdersPost_count db u oid status emailOk hstatus h v
  | supplierSync u doc =>
    show basketCount (partnerUpdatePost db u doc).1 v ≤ 1
    rw [basketCount_congr_orders _ _ v (partnerUpdatePost_orders db u doc)]
    exact h v

theorem runOps_count (ops : List Op) : ∀ db : Db,
    (∀ op ∈ ops, op.setsBasket = false) → (∀ w, basketCount db w ≤ 1) →
    ∀ v, basketCount (runOps db ops) v ≤ 1 := by
  induction ops with
  | nil => intro db _ h v; exact h v
  | cons op ops ih =>
    intro db hops h v
    show basketCount (runOps (applyOp db op) ops) v ≤ 1
    exact ih (applyOp db op)
      (fun o ho => hops o (List.mem_cons_of_mem op ho))
      (applyOp_count db op (hops op (List.mem_cons_self op ops)) h) v

theorem basketsAtMostOneB_iff (db : Db) :
    basketsAtMostOneB db = true ↔ ∀ v, basketCount db v ≤ 1 := by
  unfold basketsAtMostOneB
  rw [List.all_eq_true]
  constructor
  · intro h v
    by_cases hc : basketCount db v = 0
    · omega
    have hpos : 0 < db.orders.countP (fun o => o.userId = v && o.state = "basket") := by
      rw [← basketCount_eq_countP]
      omega
    obtain ⟨o, ho, hpo⟩ := List.countP_pos_iff.mp hpos
    simp only [Bool.and_eq_true, decide_eq_true_eq] at hpo
    have hall := h o ho
    rw [hpo.2] at hall
    simp at hall
    rw [hpo.1] at hall
    exact hall
  · intro h o ho
    by_cases hs : o.state = "basket"
    · simp [hs, h o.userId]
    · simp [hs]

/-! ### Claim theorems and witnesses -/

/-- C3, amended: an add_items call whose second line collides with the first
aborts at the colliding line: the already-created first line persists (no
rollback, it now counts one copy in the basket), any later lines are never
processed, and the response is Status false with the duplicate-constraint
error but no count of created lines. -/
theorem C3_add_items_duplicate_aborts (db : Db) (u : Nat) (b : OrderRec) (pid : Nat) (q : Int)
    (rest : List ItemData)
    (hb : db.orders.find? (fun o => o.userId = u && o.state = "basket") = some b)
    (hvalid : orderItemValid db ⟨some pid, some q⟩ = true)
    (hnodup : duplicateLine db b.id pid = false) :
    basketPost db u (some (⟨some pid, some q⟩ :: ⟨some pid, some q⟩ :: rest)) =
      ({ db with orderItems := db.orderItems ++ [⟨b.id, pid, q⟩] },
       { status := false,
         errors := some "IntegrityError: duplicate key value violates unique constraint" }) ∧
    (db.orderItems ++ [(⟨b.id, pid, q⟩ : OrderItemRec)]).countP
      (fun y => y.order = b.id && y.productInfo = pid) = 1 := by
  have h2valid : orderItemValid
      ({ db with orderItems := db.orderItems ++ [⟨b.id, pid, q⟩] } : Db) ⟨some pid, some q⟩ = true :=
    hvalid
  have h2dup : duplicateLine
      ({ db with orderItems := db.orderItems ++ [⟨b.id, pid, q⟩] } : Db) b.id pid = true := by
    simp [duplicateLine]
  have hcount0 : db.orderItems.countP (fun y => y.order = b.id && y.productInfo = pid) = 0 := by
    unfold duplicateLine at hnodup
    rw [List.countP_eq_zero]
    intro x hx
    intro hpx
    have : db.orderItems.any (fun x => x.order = b.id && x.productInfo = pid) = true :=
      List.any_eq_true.mpr ⟨x, hx, hpx⟩
    rw [hnodup] at this
    cases this
  constructor
  · unfold basketPost getOrCreateBasket
    rw [hb]
    show addLoop b.id db 0 _ = _
    rw [addLoop]
    rw [if_pos hvalid]
    dsimp only [Option.getD]
    rw [if_neg (by rw [hnodup]; exact fun h => nomatch h)]
    rw [addLoop]
    rw [if_pos h2valid]
    dsimp only [Option.getD]
    rw [if_pos h2dup]
  · rw [List.countP_append, hcount0]
    simp

/-- C4, amended: starting from any state satisfying the one-basket invariant,
every sequence of core operations in which set_status is never asked to move
an order into the basket state preserves the invariant; the unrestricted
claim fails (see the counterexample) because set_status accepts basket as a
target state. -/
theorem C4_basket_invariant_amended (db : Db) (ops : List Op)
    (hdb : basketsAtMostOneB db = true)
    (hops : ops.all (fun op => !op.setsBasket) = true) :
    basketsAtMostOneB (runOps db ops) = true := by
  rw [basketsAtMostOneB_iff] at hdb ⊢
  have hops' : ∀ op ∈ ops, op.setsBasket = false := by
    intro op hop
    have := List.all_eq_true.mp hops op hop
    simpa using this
  exact runOps_count ops db hops' hdb

/-- C5, amended: an import whose goods list contains an entry missing a
required field ends in an unhandled fault (KeyError) after the shop's old
offers were already wiped; the failure is not converted into a structured
Status-false response at the boundary. -/
theorem C5_import_missing_field_wipes_then_faults (db : Db) (u : Nat) (doc : PriceDoc)
    (htype : userType db u = some "shop")
    (hcats : (doc.categories.getD []).all catWF = true)
    (hbad : (doc.goods.getD []).all entryWF = false)
    (hfresh : piIdsFresh db = true) :
    (∃ e, (partnerUpdatePost db u doc).2 = Except.error e) ∧
    (∀ pi ∈ db.productInfos, pi.shopId = resolveShopId db u →
      pi ∉ (partnerUpdatePost db u doc).1.productInfos) := by
  obtain ⟨db2, hred, hpis, hnext, _⟩ := partnerUpdate_reduces db u doc htype
  have H := importTail_err (resolveShopId db u) db2 (doc.categories.getD [])
    (doc.goods.getD []) hcats hbad
  rw [hred]
  refine ⟨H.1, ?_⟩
  intro pi hpi hsid hmem
  rcases H.2 pi hmem with hne' | hle
  · exact hne' hsid
  · rw [hnext] at hle
    unfold piIdsFresh at hfresh
    have := List.all_eq_true.mp hfresh pi hpi
    have hlt : pi.id < db.nextProductInfoId := of_decide_eq_true this
    omega

/-- C6: a well-formed import by a supplier succeeds, leaves the shop with
exactly one offer per goods entry of the document, and none of the shop's
previous offers survive the import. -/
theorem C6_import_full_replace (db : Db) (u : Nat) (doc : PriceDoc)
    (htype : userType db u = some "shop")
    (hcats : (doc.categories.getD []).all catWF = true)
    (hwf : (doc.goods.getD []).all entryWF = true)
    (hfresh : piIdsFresh db = true) :
    (partnerUpdatePost db u doc).2 = Except.ok importOkResp ∧
    (offersOf (partnerUpdatePost db u doc).1 (resolveShopId db u)).length =
      (doc.goods.getD []).length ∧
    (∀ pi ∈ db.productInfos, pi.shopId = resolveShopId db u →
      pi ∉ (partnerUpdatePost db u doc).1.productInfos) := by
  obtain ⟨db2, hred, hpis, hnext, _⟩ := partnerUpdate_reduces db u doc htype
  have H := importTail_wf (resolveShopId db u) db2 (doc.categories.getD [])
    (doc.goods.getD []) hcats hwf
  rw [hred]
  refine ⟨H.1, H.2.1, ?_⟩
  intro pi hpi hsid hmem
  rcases H.2.2.1 pi hmem with hne' | hle
  · exact hne' hsid
  · rw [hnext] at hle
    unfold piIdsFresh at hfresh
    have := List.all_eq_true.mp hfresh pi hpi
    have hlt : pi.id < db.nextProductInfoId := of_decide_eq_true this
    omega

/-- C7: when no caller-owned order with the given id is in the basket state —
covering an already-placed order and an order of another buyer alike —
place_order returns the single NotFound-style error response and leaves the
database unchanged, so the caller cannot tell the two causes apart. -/

theorem C7_place_order_uniform_notfound (db : Db) (u orderId contactId : Nat)
    (h1 : orderId ≠ 0) (h2 : contactId ≠ 0)
    (h3 : db.orders.find? (fun o => o.userId = u && o.id = orderId && o.state = "basket") = none) :
    orderPost db u orderId contactId =
      (db, { status := false, errors := some "Заказ не найден или уже оформлен" }) := by
  unfold orderPost
  simp [h1, h2, h3]

/-- C8: per line of update_items — a positive quantity updates the matching
basket line, a quantity of zero (or less) deletes it, and an absent
(basket, offer) pair is silently skipped contributing zero to the affected
count; in particular quantity 0 for an offer not in the basket is a no-op
returning Status true with zero affected and no error. -/
theorem C8_update_items_line_semantics (db : Db) (u : Nat) (b : OrderRec)
    (hb : db.orders.find? (fun o => o.userId = u && o.state = "basket") = some b) :
    (∀ pid : Nat, ∀ q : Int, ∀ x : OrderItemRec, 0 < q →
       db.orderItems.find? (fun y => y.order = b.id && y.productInfo = pid) = some x →
       (basketPut db u (some [⟨some pid, some q⟩])).2 =
         { status := true, updatedCount := some 1 } ∧
       getItemQty (basketPut db u (some [⟨some pid, some q⟩])).1 b.id pid = some q) ∧
    (∀ pid : Nat, ∀ q : Int, ∀ x : OrderItemRec, q ≤ 0 →
       db.orderItems.find? (fun y => y.order = b.id && y.productInfo = pid) = some x →
       db.orderItems.countP (fun y => y.order = b.id && y.productInfo = pid) ≤ 1 →
       (basketPut db u (some [⟨some pid, some q⟩])).2 =
         { status := true, updatedCount := some 1 } ∧
       getItemQty (basketPut db u (some [⟨some pid, some q⟩])).1 b.id pid = none) ∧
    (∀ pid : Nat, ∀ q : Int,
       db.orderItems.find? (fun y => y.order = b.id && y.productInfo = pid) = none →
       basketPut db u (some [⟨some pid, some q⟩]) =
         (db, { status := true, updatedCount := some 0 })) := by
  have hred : ∀ it : ItemData, basketPut db u (some [it]) =
      ((putStep b.id (db, 0) it).1,
       { status := true, updatedCount := some (putStep b.id (db, 0) it).2 }) := by
    intro it
    unfold basketPut getOrCreateBasket
    rw [hb]
    rfl
  refine ⟨?_, ?_, ?_⟩
  · intro pid q x hq hfind
    rw [hred]
    have hstep : putStep b.id (db, 0) ⟨some pid, some q⟩ =
        ({ db with orderItems := updateFirstQty db.orderItems b.id pid q }, 1) := by
      unfold putStep
      dsimp only
      rw [hfind, if_pos hq]
    rw [hstep]
    refine ⟨rfl, ?_⟩
    unfold getItemQty
    rw [show ({ db with orderItems := updateFirstQty db.orderItems b.id pid q } : Db).orderItems
          = updateFirstQty db.orderItems b.id pid q from rfl]
    rw [find?_updateFirstQty db.orderItems b.id pid q x hfind]
    rfl
  · intro pid q x hq hfind hcount
    rw [hred]
    have hstep : putStep b.id (db, 0) ⟨some pid, some q⟩ =
        ({ db with orderItems := eraseFirstItem db.orderItems b.id pid }, 1) := by
      unfold putStep
      dsimp only
      rw [hfind, if_neg (by omega)]
    rw [hstep]
    refine ⟨rfl, ?_⟩
    unfold getItemQty
    rw [show ({ db with orderItems := eraseFirstItem db.orderItems b.id pid } : Db).orderItems
          = eraseFirstItem db.orderItems b.id pid from rfl]
    rw [find?_eraseFirstItem db.orderItems b.id pid hcount]
    rfl
  · intro pid q hfind
    rw [hred]
    have hstep : putStep b.id (db, 0) ⟨some pid, some q⟩ = (db, 0) := by
      unfold putStep
      dsimp only
      rw [hfind]
    rw [hstep]

/-- C9: under the fulfillment preconditions set_status persists the new state
and sends the buyer a notification carrying the human-readable state label
and the order timestamp; when the send fails, the caller receives a
Status-false error while the already-committed state change stays persisted
and no notification is recorded. -/
theorem C9_set_status_persists_and_notifies (db : Db) (u orderId : Nat) (status : String)
    (emailOk : Bool) (o : OrderRec)
    (htype : userType db u = some "shop")
    (h1 : orderId ≠ 0) (h2 : status ≠ "")
    (hstat : STATE_CHOICES.any (fun c => c.1 = status) = true)
    (hord : db.orders.find? (fun x =>
        x.id = orderId && orderHasShopItem db x.id u && fulfillStates.contains x.state) = some o)
    (hnd : (db.orders.map (fun x => x.id)).Nodup) :
    getOrderState (partnerOrdersPost db u orderId status emailOk).1 orderId = some status ∧
    (emailOk = true →
      (partnerOrdersPost db u orderId status emailOk).2.status = true ∧
      (partnerOrdersPost db u orderId status emailOk).1.notifications =
        db.notifications ++
          [⟨userEmail db o.userId,
            "Статус вашего заказа #" ++ toString o.id ++ " изменён",
            "Новый статус: " ++ getStateDisplay status ++ "\nДата: " ++ toString o.dt⟩]) ∧
    (emailOk = false →
      (partnerOrdersPost db u orderId status emailOk).2.status = false ∧
      (partnerOrdersPost db u orderId status emailOk).2.errors.isSome = true ∧
      (partnerOrdersPost db u orderId status emailOk).1.notifications = db.notifications) := by
  set f : OrderRec → OrderRec := fun x =>
    if x.id = orderId then { x with state := status } else x with hfdef
  have hfid : ∀ x, (f x).id = x.id := by
    intro x
    rw [hfdef]
    dsimp only
    split <;> rfl
  have hmem : o ∈ db.orders := List.mem_of_find?_eq_some hord
  have hpred := List.find?_some hord
  simp only [Bool.and_eq_true, decide_eq_true_eq] at hpred
  have hoid : o.id = orderId := hpred.1.1
  have hfo : f o = { o with state := status } := by
    rw [hfdef]
    dsimp only
    rw [if_pos hoid]
  have hnd' : ((db.orders.map f).map (fun x => x.id)).Nodup := by
    rw [map_id_preserved db.orders f hfid]; exact hnd
  have hfind : (db.orders.map f).find? (fun x => x.id = orderId) = some (f o) := by
    have h := find?_id_of_mem_nodup (db.orders.map f) (f o) (List.mem_map_of_mem f hmem) hnd'
    rw [hfid o, hoid] at h
    exact h
  have hord' : db.orders.find? (fun x =>
      decide (x.id = orderId) && orderHasShopItem db x.id u && decide (x.state ∈ fulfillStates)) = some o := by
    simpa using hord
  cases emailOk with
  | true =>
    have hres : partnerOrdersPost db u orderId status true =
        ({ db with orders := db.orders.map f,
                   notifications := db.notifications ++
                     [⟨userEmail db o.userId,
                       "Статус вашего заказа #" ++ toString o.id ++ " изменён",
                       "Новый статус: " ++ getStateDisplay status ++ "\nДата: " ++ toString o.dt⟩] },
         { status := true,
           message := some ("Статус заказа #" ++ toString orderId ++ " изменён на " ++ status) }) := by
      unfold partnerOrdersPost
      simp [htype, h1, h2, hstat, hord', hfdef]
    rw [hres]
    refine ⟨?_, ?_, ?_⟩
    · exact getOrderState_of_find _ orderId status (f o) hfind (by rw [hfo])
    · intro _
      exact ⟨rfl, rfl⟩
    · intro h
      exact nomatch h
  | false =>
    have hres : partnerOrdersPost db u orderId status false =
        ({ db with orders := db.orders.map f },
         { status := false, errors := some "SMTPException: send failed" }) := by
      unfold partnerOrdersPost
      simp [htype, h1, h2, hstat, hord', hfdef]
    rw [hres]
    refine ⟨?_, ?_, ?_⟩
    · exact getOrderState_of_find _ orderId status (f o) hfind (by rw [hfo])
    · intro h
      exact nomatch h
    · intro _
      exact ⟨rfl, rfl, rfl⟩

/-- C10: place_order does not require a non-empty basket: with an empty basket
order and a valid contact it succeeds, the order moves to state new, and its
computed total is zero. -/
theorem C10_place_order_empty_basket (db : Db) (u oid cid : Nat) (o : OrderRec) (c : ContactRec)
    (h1 : oid ≠ 0) (h2 : cid ≠ 0)
    (hord : db.orders.find? (fun o => o.userId = u && o.id = oid && o.state = "basket") = some o)
    (hcon : db.contacts.find? (fun x => x.userId = u && x.id = cid) = some c)
    (hnd : (db.orders.map (fun x => x.id)).Nodup)
    (hemp : db.orderItems.filter (fun x => x.order = oid) = []) :
    (orderPost db u oid cid).2.status = true ∧
    getOrderState (orderPost db u oid cid).1 oid = some "new" ∧
    getOrderContact (orderPost db u oid cid).1 oid = some c.id ∧
    orderTotal (orderPost db u oid cid).1 oid = 0 := by
  have hres : orderPost db u oid cid =
      ({ db with orders := db.orders.map (fun x =>
           if x.userId = u && x.id = oid && x.state = "basket" then
             { x with contactId := some c.id, state := "new" }
           else x) },
       { status := true, message := some "Заказ успешно оформлен" }) := by
    unfold orderPost
    simp [h1, h2, hord, hcon]
  set f : OrderRec → OrderRec := fun x =>
    if x.userId = u && x.id = oid && x.state = "basket" then
      { x with contactId := some c.id, state := "new" }
    else x with hfdef
  have hfid : ∀ x, (f x).id = x.id := by
    intro x
    rw [hfdef]
    dsimp only
    split <;> rfl
  have hmem : o ∈ db.orders := List.mem_of_find?_eq_some hord
  have hpred := List.find?_some hord
  have hoid : o.id = oid := by
    simp at hpred
    exact hpred.1.2
  have hfo : f o = { o with contactId := some c.id, state := "new" } := by
    simp at hpred
    simp [hfdef, hpred.1.1, hpred.1.2, hpred.2]
  have hnd' : ((db.orders.map f).map (fun x => x.id)).Nodup := by
    rw [map_id_preserved db.orders f hfid]; exact hnd
  have hmem' : f o ∈ db.orders.map f := List.mem_map_of_mem f hmem
  have hfind : (db.orders.map f).find? (fun x => x.id = (f o).id) = some (f o) :=
    find?_id_of_mem_nodup _ _ hmem' hnd'
  rw [hfid o, hoid] at hfind
  refine ⟨by rw [hres], ?_, ?_, ?_⟩
  · rw [hres]
    unfold getOrderState
    rw [show ({ db with orders := db.orders.map f } : Db).orders = db.orders.map f from rfl] at *
    rw [hfind, hfo]
    rfl
  · rw [hres]
    unfold getOrderContact
    rw [show ({ db with orders := db.orders.map f } : Db).orders = db.orders.map f from rfl] at *
    rw [hfind, hfo]
    rfl
  · rw [hres]
    unfold orderTotal
    rw [show ({ db with orders := db.orders.map f } : Db).orderItems = db.orderItems from rfl]
    rw [hemp]
    rfl

theorem C3_witness :
    dbDup.orders.find? (fun o => o.userId = 1 && o.state = "basket") =
      some ⟨1, 1, "basket", none, 0⟩ ∧
    orderItemValid dbDup ⟨some 7, some 1⟩ = true ∧
    duplicateLine dbDup 1 7 = false ∧
    (basketPost dbDup 1 (some [⟨some 7, some 1⟩, ⟨some 7, some 1⟩])).2 =
      { status := false,
        errors := some "IntegrityError: duplicate key value violates unique constraint" } :=
  ⟨rfl, rfl, rfl,
   congrArg Prod.snd
     (C3_add_items_duplicate_aborts dbDup 1 ⟨1, 1, "basket", none, 0⟩ 7 1 [] rfl rfl rfl).1⟩

theorem C4_witness :
    basketsAtMostOneB dbTrace = true ∧
    opsGood.all (fun op => !op.setsBasket) = true ∧
    basketsAtMostOneB (runOps dbTrace opsGood) = true :=
  ⟨rfl, rfl, C4_basket_invariant_amended dbTrace opsGood rfl rfl⟩

theorem C5_witness :
    userType dbShopOne 10 = some "shop" ∧
    (badDocC5.categories.getD []).all catWF = true ∧
    (badDocC5.goods.getD []).all entryWF = false ∧
    piIdsFresh dbShopOne = true ∧
    (⟨1, 1, 1, 1001, "", 10000, 12000, 3⟩ : ProductInfoRec) ∉
      (partnerUpdatePost dbShopOne 10 badDocC5).1.productInfos :=
  ⟨rfl, rfl, rfl, rfl,
   (C5_import_missing_field_wipes_then_faults dbShopOne 10 badDocC5 rfl rfl rfl rfl).2
     ⟨1, 1, 1, 1001, "", 10000, 12000, 3⟩ (List.mem_singleton.mpr rfl) rfl⟩

theorem C6_witness :
    userType dbAfterThree 2 = some "shop" ∧
    (docOne.categories.getD []).all catWF = true ∧
    (docOne.goods.getD []).all entryWF = true ∧
    piIdsFresh dbAfterThree = true ∧
    (offersOf (partnerUpdatePost dbAfterThree 2 docOne).1 (resolveShopId dbAfterThree 2)).length = 1 :=
  ⟨rfl, rfl, rfl, rfl, (C6_import_full_replace dbAfterThree 2 docOne rfl rfl rfl rfl).2.1⟩

theorem C7_witness :
    (1 : Nat) ≠ 0 ∧
    dbFulfill.orders.find? (fun o => o.userId = 1 && o.id = 1 && o.state = "basket") = none ∧
    orderPost dbFulfill 1 1 1 =
      (dbFulfill, { status := false, errors := some "Заказ не найден или уже оформлен" }) :=
  ⟨by decide, rfl, C7_place_order_uniform_notfound dbFulfill 1 1 1 (by decide) (by decide) rfl⟩

theorem C8_witness :
    dbDup.orders.find? (fun o => o.userId = 1 && o.state = "basket") =
      some ⟨1, 1, "basket", none, 0⟩ ∧
    dbDup.orderItems.find? (fun y => y.order = 1 && y.productInfo = 5) = none ∧
    basketPut dbDup 1 (some [⟨some 5, some 0⟩]) = (dbDup, { status := true, updatedCount := some 0 }) :=
  ⟨rfl, rfl,
   (C8_update_items_line_semantics dbDup 1 ⟨1, 1, "basket", none, 0⟩ rfl).2.2 5 0 rfl⟩

theorem C9_witness :
    userType dbFulfill 2 = some "shop" ∧
    STATE_CHOICES.any (fun c => c.1 = "confirmed") = true ∧
    dbFulfill.orders.find? (fun x => x.id = 1 && orderHasShopItem dbFulfill x.id 2 &&
      fulfillStates.contains x.state) = some ⟨1, 1, "new", some 1, 42⟩ ∧
    getOrderState (partnerOrdersPost dbFulfill 2 1 "confirmed" false).1 1 = some "confirmed" ∧
    (partnerOrdersPost dbFulfill 2 1 "confirmed" false).2.status = false := by
  have H := C9_set_status_persists_and_notifies dbFulfill 2 1 "confirmed" false
    ⟨1, 1, "new", some 1, 42⟩ rfl (by decide) (by decide) rfl rfl (by decide)
  exact ⟨rfl, rfl, rfl, H.1, (H.2.2 rfl).1⟩

theorem C10_witness :
    dbPlaceEmpty.orders.find? (fun o => o.userId = 1 && o.id = 1 && o.state = "basket") =
      some ⟨1, 1, "basket", none, 0⟩ ∧
    dbPlaceEmpty.contacts.find? (fun x => x.userId = 1 && x.id = 1) = some ⟨1, 1⟩ ∧
    dbPlaceEmpty.orderItems.filter (fun x => x.order = 1) = [] ∧
    (orderPost dbPlaceEmpty 1 1 1).2.status = true ∧
    getOrderState (orderPost dbPlaceEmpty 1 1 1).1 1 = some "new" ∧
    orderTotal (orderPost dbPlaceEmpty 1 1 1).1 1 = 0 := by
  have H := C10_place_order_empty_basket dbPlaceEmpty 1 1 1 ⟨1, 1, "basket", none, 0⟩ ⟨1, 1⟩
    (by decide) (by decide) rfl rfl (by decide) rfl
  exact ⟨rfl, rfl, rfl, H.1, H.2.1, H.2.2.2⟩
